import Mathlib

/-!
Shallow embedding of the GoNavi backend connectivity layer, together with
proofs about its connection cache (`app.go`), its driver registry
(`internal/db/database.go`), the driver-runtime normalization layer, the
agent worker loop, and the Diros multi-host connect sequence.

Go strings are modelled as Lean `String`s; `strings.ToLower` and
`strings.TrimSpace` are embedded in their ASCII fragment (every string the
verified code compares against is ASCII).  Go `int` is modelled as `Int`,
`error` as `Option String` (`none` = nil) or `Except String`, pointers and
interface values as `Nat` handles, and Go maps as association lists with
Go-map lookup/insert/delete semantics.
-/

namespace GoNavi

/-! ### ASCII fragment of the Go `strings` helpers -/

/-- Whitespace test used by `strings.TrimSpace` (ASCII fragment of
`unicode.IsSpace`: space, tab, newline, vertical tab, form feed,
carriage return). -/
def goSpace (c : Char) : Bool :=
  c.toNat = 32 || c.toNat = 9 || c.toNat = 10 || c.toNat = 13 ||
    c.toNat = 11 || c.toNat = 12

/-- Drops leading and trailing elements satisfying `p`. -/
def trimList (p : α → Bool) (l : List α) : List α :=
  ((l.dropWhile p).reverse.dropWhile p).reverse

/-- Embedding of Go `strings.TrimSpace`. -/
def goTrimSpace (s : String) : String :=
  String.mk (trimList goSpace s.data)

/-- ASCII lower-casing of one character, as in Go `unicode.ToLower`
restricted to ASCII. -/
def lowerChar (c : Char) : Char :=
  if c.toNat ≥ 65 ∧ c.toNat ≤ 90 then Char.ofNat (c.toNat + 32) else c

/-- Embedding of Go `strings.ToLower` (ASCII fragment). -/
def goToLower (s : String) : String :=
  String.mk (s.data.map lowerChar)

/-! ### internal/db/database.go — registry and factory -/

/-- Identifies which factory a registry entry holds: a built-in binding or
the agent-backed binding for an optional driver
(`newOptionalDriverAgentDatabase`). -/
inductive DBKind where
  | mysql
  | postgres
  | oracle
  | custom
  | agent (driver : String)
deriving DecidableEq, Repr

/-- Embedding of `normalizeDatabaseType` (internal/db/database.go): trim,
lower-case, and alias `doris` to `diros` and `postgresql` to `postgres`. -/
def normalizeDatabaseType (dbType : String) : String :=
  let normalized := goToLower (goTrimSpace dbType)
  if normalized = "doris" then "diros"
  else if normalized = "postgresql" then "postgres"
  else normalized

/-- Embedding of `normalizeRuntimeDriverType` (driver-runtime layer,
driver_support source file): textually the same normalization as
`normalizeDatabaseType`. -/
def normalizeRuntimeDriverType (driverType : String) : String :=
  let normalized := goToLower (goTrimSpace driverType)
  if normalized = "doris" then "diros"
  else if normalized = "postgresql" then "postgres"
  else normalized

/-- The registry map `databaseFactories`, modelled as an association list
with Go-map semantics. -/
abbrev Registry := List (String × DBKind)

/-- Go-map lookup. -/
def registryLookup : Registry → String → Option DBKind
  | [], _ => none
  | (k, v) :: rest, key => if k = key then some v else registryLookup rest key

/-- Go-map assignment (last write wins). -/
def registrySet (m : Registry) (k : String) (v : DBKind) : Registry :=
  (k, v) :: m.filter (fun p => p.1 != k)

/-- Embedding of `registerDatabaseFactory`: register one factory under each
normalized type name, skipping empty names (the nil-factory guard cannot
fire in the model because factories are total values). -/
def registerDatabaseFactory (m : Registry) (factory : DBKind)
    (dbTypes : List String) : Registry :=
  if dbTypes = [] then m
  else
    dbTypes.foldl
      (fun acc t =>
        let normalized := normalizeDatabaseType t
        if normalized = "" then acc else registrySet acc normalized factory)
      m

/-- Embedding of `newOptionalDriverAgentDatabase` (optional driver agent
client source): the factory producing an agent-backed binding for the
normalized driver type. -/
def newOptionalDriverAgentDatabase (driverType : String) : DBKind :=
  DBKind.agent (normalizeRuntimeDriverType driverType)

/-- The initial contents of `databaseFactories`
(internal/db/database.go). -/
def initialDatabaseFactories : Registry :=
  [("mysql", DBKind.mysql), ("postgres", DBKind.postgres),
   ("oracle", DBKind.oracle), ("custom", DBKind.custom)]

/-- Embedding of `registerOptionalDatabaseFactories`
(internal/db/database_optional_factories_full.go, the full build). -/
def registerOptionalDatabaseFactories (m : Registry) : Registry :=
  let m := registerDatabaseFactory m (newOptionalDriverAgentDatabase "mariadb") ["mariadb"]
  let m := registerDatabaseFactory m (newOptionalDriverAgentDatabase "diros") ["diros", "doris"]
  let m := registerDatabaseFactory m (newOptionalDriverAgentDatabase "sphinx") ["sphinx"]
  let m := registerDatabaseFactory m (newOptionalDriverAgentDatabase "sqlserver") ["sqlserver"]
  let m := registerDatabaseFactory m (newOptionalDriverAgentDatabase "sqlite") ["sqlite"]
  let m := registerDatabaseFactory m (newOptionalDriverAgentDatabase "duckdb") ["duckdb"]
  let m := registerDatabaseFactory m (newOptionalDriverAgentDatabase "dameng") ["dameng"]
  let m := registerDatabaseFactory m (newOptionalDriverAgentDatabase "kingbase") ["kingbase"]
  let m := registerDatabaseFactory m (newOptionalDriverAgentDatabase "highgo") ["highgo"]
  let m := registerDatabaseFactory m (newOptionalDriverAgentDatabase "vastbase") ["vastbase"]
  let m := registerDatabaseFactory m (newOptionalDriverAgentDatabase "mongodb") ["mongodb"]
  let m := registerDatabaseFactory m (newOptionalDriverAgentDatabase "tdengine") ["tdengine"]
  m

/-- The registry after process start (`init` runs
`registerOptionalDatabaseFactories`). -/
def databaseFactories : Registry :=
  registerOptionalDatabaseFactories initialDatabaseFactories

/-- Embedding of `NewDatabase` (internal/db/database.go): normalize, default
the empty name to mysql, look up the factory, and fail on unknown types. -/
def NewDatabase (dbType : String) : Except String DBKind :=
  let normalized := normalizeDatabaseType dbType
  let normalized := if normalized = "" then "mysql" else normalized
  match registryLookup databaseFactories normalized with
  | some factory => Except.ok factory
  | none => Except.error ("unsupported database type: " ++ dbType)

/-! ### app.go — connection cache of the main application

The root `main` package declares its own `ConnectionConfig`/`SSHConfig`
(app.go lines 44-53); the Go field `Type` is rendered `DBType` because
`Type` is a Lean keyword. `Database` interface values are modelled as `Nat`
handles; the behaviour of `Ping`, `NewDatabase` and `Connect` on a handle is
supplied by an `AppEnv` oracle, and every call the cache makes to the
underlying layer is recorded as an `AppEvent` so that "no second Connect"
style properties can be stated. -/

/-- SSH tunnel parameters (app-side `SSHConfig`). -/
structure SSHConfig where
  Host : String
  Port : Int
  User : String
  Password : String
  KeyPath : String
deriving DecidableEq, Repr

/-- App-side `ConnectionConfig` (app.go). -/
structure ConnectionConfig where
  DBType : String
  Host : String
  Port : Int
  User : String
  Password : String
  Database : String
  UseSSH : Bool
  SSH : SSHConfig
deriving DecidableEq, Repr

/-- Result type returned by the bound app methods (`QueryResult`); the
`interface{}` data payload is opaque to all verified code and is modelled
as a `Nat` token. -/
structure QueryResult where
  Success : Bool
  Message : String
  Data : Option Nat
  Fields : List String
deriving DecidableEq, Repr

/-- Embedding of `getCacheKey` (app.go lines 63-66):
`fmt.Sprintf("%s|%s|%s:%d|%s|%s|%v", Type, User, Host, Port, Database,
SSH.Host, UseSSH)` written as right-nested concatenation. -/
def getCacheKey (config : ConnectionConfig) : String :=
  config.DBType ++ ("|" ++ (config.User ++ ("|" ++ (config.Host ++ (":" ++
    (toString config.Port ++ ("|" ++ (config.Database ++ ("|" ++
    (config.SSH.Host ++ ("|" ++ (if config.UseSSH then "true" else "false"))))))))))))

/-- Calls the connection cache makes into the layer below it. -/
inductive AppEvent where
  | ping (db : Nat)
  | close (db : Nat)
  | factoryCall (dbType : String)
  | connect (db : Nat)
  | applyCall (db : Nat)
deriving DecidableEq, Repr

/-- Oracle for the behaviour of the layer below the cache: liveness of a
handle, the result of the `main`-package `NewDatabase` factory, the result
of `Connect`, and the optional `BatchApplier` capability. -/
structure AppEnv where
  pingOk : Nat → Bool
  factory : String → Except String Nat
  connectErr : Nat → ConnectionConfig → Option String
  hasBatch : Nat → Bool
  applyErr : Nat → String → List Nat → Option String

/-- The `dbCache` map of the `App` struct, with Go-map semantics. -/
abbrev AppCache := List (String × Nat)

/-- Go-map lookup on the connection cache. -/
def cacheLookup : AppCache → String → Option Nat
  | [], _ => none
  | (k, v) :: rest, key => if k = key then some v else cacheLookup rest key

/-- Go-map `delete` on the connection cache. -/
def cacheErase (st : AppCache) (key : String) : AppCache :=
  st.filter (fun p => p.1 != key)

/-- Go-map assignment on the connection cache. -/
def cacheInsert (st : AppCache) (key : String) (v : Nat) : AppCache :=
  (key, v) :: cacheErase st key

/-- Embedding of `(*App).getDatabase` (app.go lines 69-97): on a cache hit
ping and reuse; on a failed ping close and evict, then reconnect; on a miss
construct via the factory and `Connect`, caching only on success. -/
def getDatabase (env : AppEnv) (st : AppCache) (config : ConnectionConfig) :
    Except String Nat × AppCache × List AppEvent :=
  let key := getCacheKey config
  match cacheLookup st key with
  | some db =>
    if env.pingOk db then (Except.ok db, st, [AppEvent.ping db])
    else
      let st1 := cacheErase st key
      match env.factory config.DBType with
      | Except.error e =>
        (Except.error e, st1,
          [AppEvent.ping db, AppEvent.close db, AppEvent.factoryCall config.DBType])
      | Except.ok newDb =>
        match env.connectErr newDb config with
        | some e =>
          (Except.error e, st1,
            [AppEvent.ping db, AppEvent.close db, AppEvent.factoryCall config.DBType,
             AppEvent.connect newDb])
        | none =>
          (Except.ok newDb, cacheInsert st1 key newDb,
            [AppEvent.ping db, AppEvent.close db, AppEvent.factoryCall config.DBType,
             AppEvent.connect newDb])
  | none =>
    match env.factory config.DBType with
    | Except.error e => (Except.error e, st, [AppEvent.factoryCall config.DBType])
    | Except.ok newDb =>
      match env.connectErr newDb config with
      | some e =>
        (Except.error e, st,
          [AppEvent.factoryCall config.DBType, AppEvent.connect newDb])
      | none =>
        (Except.ok newDb, cacheInsert st key newDb,
          [AppEvent.factoryCall config.DBType, AppEvent.connect newDb])

/-- Embedding of `(*App).ApplyChanges` (app.go lines 521-541): get the
cached or fresh connection, require the `BatchApplier` capability, and
otherwise fail without touching the engine.  The `ChangeSet` rows are
opaque to this method and modelled as `Nat` tokens. -/
def ApplyChanges (env : AppEnv) (st : AppCache) (config : ConnectionConfig)
    (dbName tableName : String) (changes : List Nat) :
    QueryResult × AppCache × List AppEvent :=
  let runConfig := if dbName != "" then { config with Database := dbName } else config
  match getDatabase env st runConfig with
  | (Except.error e, st1, evs) =>
    ({ Success := false, Message := e, Data := none, Fields := [] }, st1, evs)
  | (Except.ok db, st1, evs) =>
    if env.hasBatch db then
      match env.applyErr db tableName changes with
      | some e =>
        ({ Success := false, Message := e, Data := none, Fields := [] }, st1,
          evs ++ [AppEvent.applyCall db])
      | none =>
        ({ Success := true, Message := "Changes applied successfully",
           Data := none, Fields := [] }, st1, evs ++ [AppEvent.applyCall db])
    else
      ({ Success := false, Message := "Batch updates not supported for this database type",
         Data := none, Fields := [] }, st1, evs)

/-! ### internal/connection/types.go — shared wire types

The agent worker receives `connection.ConnectionConfig` and
`connection.ChangeSet` values; the worker never inspects them (it forwards
them to the engine binding), so `interface{}` cell values inside change
sets are modelled as `Nat` tokens. -/

namespace Connection

/-- SSH tunnel parameters (`connection.SSHConfig`). -/
structure SSHConfig where
  Host : String
  Port : Int
  User : String
  Password : String
  KeyPath : String
deriving DecidableEq, Repr

/-- Embedding of `connection.ConnectionConfig` (internal/connection/types.go);
the Go field `Type` is rendered `DBType`. -/
structure ConnectionConfig where
  DBType : String
  Host : String
  Port : Int
  User : String
  Password : String
  SavePassword : Bool
  Database : String
  UseSSH : Bool
  SSH : SSHConfig
  Driver : String
  DSN : String
  Timeout : Int
  RedisDB : Int
  URI : String
  Hosts : List String
  Topology : String
  MySQLReplicaUser : String
  MySQLReplicaPassword : String
deriving DecidableEq, Repr

/-- Row update of a `ChangeSet` (`connection.UpdateRow`). -/
structure UpdateRow where
  Keys : List (String × Nat)
  Values : List (String × Nat)
deriving DecidableEq, Repr

/-- Batch of changes (`connection.ChangeSet`). -/
structure ChangeSet where
  Inserts : List (List (String × Nat))
  Updates : List UpdateRow
  Deletes : List (List (String × Nat))
deriving DecidableEq, Repr

end Connection

/-! ### Agent worker process (optional-driver-agent main loop)

The worker reads one request per line, routes it through `handleRequest`
onto the single engine instance, and writes one response per line.  Engine
instances are `Nat` handles allocated by the factory; the behaviour of each
contract method on a handle is an oracle (`WorkerEnv`), and every call the
worker makes into the engine binding is recorded as an `EngineCall` so that
"no partial writes" properties can be stated.  Result payloads
(`interface{}` data) are opaque `Nat` tokens. -/

/-- Wire request of the agent protocol (`agentRequest`). -/
structure agentRequest where
  ID : Int
  Method : String
  Config : Option Connection.ConnectionConfig
  Query : String
  DBName : String
  TableName : String
  Changes : Option Connection.ChangeSet
deriving DecidableEq, Repr

/-- Wire response of the agent protocol (`agentResponse`). -/
structure agentResponse where
  ID : Int
  Success : Bool
  Error : String
  Data : Option Nat
  Fields : List String
  RowsAffected : Int
deriving DecidableEq, Repr

/-- Calls the worker makes into the engine binding compiled into it. -/
inductive EngineCall where
  | connect (inst : Nat)
  | close (inst : Nat)
  | ping (inst : Nat)
  | query (inst : Nat)
  | exec (inst : Nat)
  | meta (inst : Nat) (method : String)
  | apply (inst : Nat)
deriving DecidableEq, Repr

/-- Oracle for the engine binding linked into the worker
(`agentDatabaseFactory` and the `db.Database` methods of its product).
`factoryOk = false` models the factory returning `nil`. -/
structure WorkerEnv where
  factoryOk : Bool
  connectErr : Nat → Connection.ConnectionConfig → Option String
  closeErr : Nat → Option String
  pingErr : Nat → Option String
  query : Nat → String → Except String (Nat × List String)
  exec : Nat → String → Except String Int
  getDatabases : Nat → Except String Nat
  getTables : Nat → String → Except String Nat
  getCreateStatement : Nat → String → String → Except String Nat
  getColumns : Nat → String → String → Except String Nat
  getAllColumns : Nat → String → Except String Nat
  getIndexes : Nat → String → String → Except String Nat
  getForeignKeys : Nat → String → String → Except String Nat
  getTriggers : Nat → String → String → Except String Nat
  hasBatch : Nat → Bool
  applyErr : Nat → String → Connection.ChangeSet → Option String

/-- Worker-local state: the `inst db.Database` variable of the main loop
(`none` = nil) and the allocator for fresh instance handles. -/
structure WorkerState where
  inst : Option Nat
  counter : Nat
deriving DecidableEq, Repr

/-- Embedding of `fail`: mark the response failed with the trimmed error
text. -/
def workerFail (resp : agentResponse) (errText : String) : agentResponse :=
  { resp with Success := false, Error := goTrimSpace errText }

/-- Embedding of `handleRequest` of the agent worker: `connect`/`close` are
special-cased, every other method requires an open connection, and
`applyChanges` additionally requires the batch capability.  Returns the
response, the successor state, and the engine calls performed. -/
def handleRequest (env : WorkerEnv) (st : WorkerState) (req : agentRequest) :
    agentResponse × WorkerState × List EngineCall :=
  let resp : agentResponse :=
    { ID := req.ID, Success := true, Error := "", Data := none,
      Fields := [], RowsAffected := 0 }
  let method := goTrimSpace req.Method
  if method = "connect" then
    match req.Config with
    | none => (workerFail resp "连接配置为空", st, [])
    | some cfg =>
      let closeEvs := match st.inst with
        | some i => [EngineCall.close i]
        | none => []
      if env.factoryOk then
        let next := st.counter
        match env.connectErr next cfg with
        | some e =>
          (workerFail resp e, { st with counter := st.counter + 1 },
            closeEvs ++ [EngineCall.connect next])
        | none =>
          (resp, { inst := some next, counter := st.counter + 1 },
            closeEvs ++ [EngineCall.connect next])
      else (workerFail resp "驱动代理初始化失败", st, closeEvs)
  else if method = "close" then
    match st.inst with
    | some i =>
      match env.closeErr i with
      | some e => (workerFail resp e, st, [EngineCall.close i])
      | none => (resp, { st with inst := none }, [EngineCall.close i])
    | none => (resp, st, [])
  else
    match st.inst with
    | none => (workerFail resp "connection not open", st, [])
    | some i =>
      match method with
      | "ping" =>
        match env.pingErr i with
        | some e => (workerFail resp e, st, [EngineCall.ping i])
        | none => (resp, st, [EngineCall.ping i])
      | "query" =>
        match env.query i req.Query with
        | Except.error e => (workerFail resp e, st, [EngineCall.query i])
        | Except.ok (d, f) =>
          ({ resp with Data := some d, Fields := f }, st, [EngineCall.query i])
      | "exec" =>
        match env.exec i req.Query with
        | Except.error e => (workerFail resp e, st, [EngineCall.exec i])
        | Except.ok n =>
          ({ resp with RowsAffected := n }, st, [EngineCall.exec i])
      | "getDatabases" =>
        match env.getDatabases i with
        | Except.error e => (workerFail resp e, st, [EngineCall.meta i "getDatabases"])
        | Except.ok d =>
          ({ resp with Data := some d }, st, [EngineCall.meta i "getDatabases"])
      | "getTables" =>
        match env.getTables i req.DBName with
        | Except.error e => (workerFail resp e, st, [EngineCall.meta i "getTables"])
        | Except.ok d =>
          ({ resp with Data := some d }, st, [EngineCall.meta i "getTables"])
      | "getCreateStatement" =>
        match env.getCreateStatement i req.DBName req.TableName with
        | Except.error e => (workerFail resp e, st, [EngineCall.meta i "getCreateStatement"])
        | Except.ok d =>
          ({ resp with Data := some d }, st, [EngineCall.meta i "getCreateStatement"])
      | "getColumns" =>
        match env.getColumns i req.DBName req.TableName with
        | Except.error e => (workerFail resp e, st, [EngineCall.meta i "getColumns"])
        | Except.ok d =>
          ({ resp with Data := some d }, st, [EngineCall.meta i "getColumns"])
      | "getAllColumns" =>
        match env.getAllColumns i req.DBName with
        | Except.error e => (workerFail resp e, st, [EngineCall.meta i "getAllColumns"])
        | Except.ok d =>
          ({ resp with Data := some d }, st, [EngineCall.meta i "getAllColumns"])
      | "getIndexes" =>
        match env.getIndexes i req.DBName req.TableName with
        | Except.error e => (workerFail resp e, st, [EngineCall.meta i "getIndexes"])
        | Except.ok d =>
          ({ resp with Data := some d }, st, [EngineCall.meta i "getIndexes"])
      | "getForeignKeys" =>
        match env.getForeignKeys i req.DBName req.TableName with
        | Except.error e => (workerFail resp e, st, [EngineCall.meta i "getForeignKeys"])
        | Except.ok d =>
          ({ resp with Data := some d }, st, [EngineCall.meta i "getForeignKeys"])
      | "getTriggers" =>
        match env.getTriggers i req.DBName req.TableName with
        | Except.error e => (workerFail resp e, st, [EngineCall.meta i "getTriggers"])
        | Except.ok d =>
          ({ resp with Data := some d }, st, [EngineCall.meta i "getTriggers"])
      | "applyChanges" =>
        match req.Changes with
        | none => (workerFail resp "变更集为空", st, [])
        | some cs =>
          if env.hasBatch i then
            match env.applyErr i req.TableName cs with
            | some e => (workerFail resp e, st, [EngineCall.apply i])
            | none => (resp, st, [EngineCall.apply i])
          else (workerFail resp "当前驱动不支持 ApplyChanges", st, [])
      | _ => (workerFail resp "不支持的方法", st, [])

/-- Embedding of the worker `main` loop after line framing and JSON
decoding: feed the decoded requests one at a time through `handleRequest`,
collecting the responses in the order they are written to stdout. -/
def workerRun (env : WorkerEnv) (st : WorkerState) :
    List agentRequest → List agentResponse × WorkerState
  | [] => ([], st)
  | req :: rest =>
    let step := handleRequest env st req
    let tail := workerRun env step.2.1 rest
    (step.1 :: tail.1, tail.2)

/-! ### Diros binding — multi-host connect (diros source file)

`DirosDB.Connect` resolves a candidate address list, then tries each
address in order: open a handle for the address's DSN, ping it, and stop at
the first success; failures are accumulated into `errorDetails`.  The
`sql.Open`/`PingContext` outcomes are an oracle keyed by DSN string. -/

/-- Prefix test on strings (Go `strings.HasPrefix`). -/
def strStartsWith (s pre : String) : Bool :=
  pre.data.isPrefixOf s.data

/-- Splits a character list on a separator character. -/
def splitOnChar (sep : Char) : List Char → List (List Char)
  | [] => [[]]
  | c :: rest =>
    match splitOnChar sep rest with
    | [] => [[c]]
    | h :: t => if c == sep then [] :: h :: t else (c :: h) :: t

/-- Splits a string on a separator character (Go `strings.Split` with a
one-character separator). -/
def strSplitOnChar (s : String) (sep : Char) : List String :=
  (splitOnChar sep s.data).map String.mk

/-- Concatenates a list of strings with a separator (Go `strings.Join`). -/
def strJoin (sep : String) : List String → String
  | [] => ""
  | [x] => x
  | x :: rest => x ++ sep ++ strJoin sep rest

/-- Default Diros FE port (`defaultDirosPort`). -/
def defaultDirosPort : Int := 9030

/-- Splits a string at its last colon. -/
def strSplitLastColon (s : String) : Option (String × String) :=
  if s.data.contains ':' then
    let rev := s.data.reverse
    some (String.mk (rev.dropWhile (fun c => c != ':')).reverse.dropLast,
      String.mk (rev.takeWhile (fun c => c != ':')).reverse)
  else none

/-- Parses a non-empty all-digit string as a decimal number. -/
def parseDecimal (s : String) : Option Int :=
  if s ≠ "" ∧ s.data.all (fun c => c.isDigit) then
    some (Int.ofNat (s.data.foldl (fun acc c => acc * 10 + (c.toNat - 48)) 0))
  else none

/-- Modelled from the spec: `parseHostPortWithDefault` lives in the MySQL
binding source, which is absent from this tree; per the spec's data model,
multi-host addresses are `host:port` entries and a bare host falls back to
the given default port.  Returns `none` for empty or malformed entries. -/
def parseHostPortWithDefault (entry : String) (defaultPort : Int) :
    Option (String × Int) :=
  let text := goTrimSpace entry
  if text = "" then none
  else
    match strSplitLastColon text with
    | some (h, pStr) =>
      match parseDecimal pStr with
      | some p => some (h, p)
      | none => none
    | none => some (text, defaultPort)

/-- Modelled from the spec: `normalizeMySQLAddress` lives in the MySQL
binding source, which is absent from this tree; it renders a host/port pair
in the `host:port` form used throughout the multi-host address lists. -/
def normalizeMySQLAddress (host : String) (port : Int) : String :=
  host ++ ":" ++ toString port

/-- Modelled from the spec: `getConnectTimeoutSeconds` lives in the shared
MySQL binding source, which is absent from this tree; the config declares
`Timeout` as "connection timeout in seconds (default: 30)". -/
def getConnectTimeoutSeconds (config : Connection.ConnectionConfig) : Int :=
  if config.Timeout > 0 then config.Timeout else 30

/-- Components of a parsed URI, as consumed by `applyDirosURI`. -/
structure URLParts where
  UserInfo : Option (String × Option String)
  Host : String
  Path : String
  Query : String
deriving DecidableEq, Repr

/-- Splits a string at the first occurrence of a character. -/
def strSplitFirst (s : String) (sep : Char) : Option (String × String) :=
  if s.data.contains sep then
    some (String.mk (s.data.takeWhile (fun c => c != sep)),
      String.mk ((s.data.dropWhile (fun c => c != sep)).drop 1))
  else none

/-- Splits a string at the last occurrence of a character. -/
def strSplitLast (s : String) (sep : Char) : Option (String × String) :=
  if s.data.contains sep then
    let rev := s.data.reverse
    some (String.mk ((rev.dropWhile (fun c => c != sep)).drop 1).reverse,
      String.mk (rev.takeWhile (fun c => c != sep)).reverse)
  else none

/-- Embeds the fragment of `net/url.Parse` exercised by `applyDirosURI` on
`scheme://[user[:pass]@]hostlist[/db][?query]` URIs: scheme up to the first
colon, authority up to the first slash or question mark, user info before
the last at-sign, path before the query string.  Percent-decoding is not
modelled (the verified properties never inspect parsed URIs). -/
def parseURL (uri : String) : Option URLParts :=
  match strSplitFirst uri ':' with
  | none => none
  | some (_, rest) =>
    if strStartsWith rest "//" then
      let afterScheme := String.mk (rest.data.drop 2)
      let auth := String.mk (afterScheme.data.takeWhile (fun c => c != '/' && c != '?'))
      let tail := String.mk (afterScheme.data.drop auth.length)
      let path := String.mk (tail.data.takeWhile (fun c => c != '?'))
      let query := String.mk ((tail.data.dropWhile (fun c => c != '?')).drop 1)
      let (userInfo, hostPart) :=
        match strSplitLast auth '@' with
        | some (ui, hp) =>
          (match strSplitFirst ui ':' with
           | some (u, pw) => (some (u, some pw), hp)
           | none => (some (ui, none), hp))
        | none => (none, auth)
      some { UserInfo := userInfo, Host := hostPart, Path := path, Query := query }
    else none

/-- Looks up the first value bound to a key in a query string, as
`parsed.Query().Get` does. -/
def queryGet (query : String) (key : String) : String :=
  let pairs := strSplitOnChar query '&'
  let rec go : List String → String
    | [] => ""
    | kv :: rest =>
      match strSplitFirst kv '=' with
      | some (k, v) => if k = key then v else go rest
      | none => if kv = key then "" else go rest
  go pairs

/-- Embedding of `applyDirosURI` (diros source file): fill user, password,
database, host list, primary host/port and topology from a
`diros://`/`doris://`/`mysql://` URI, each only when not already set. -/
def applyDirosURI (config : Connection.ConnectionConfig) :
    Connection.ConnectionConfig :=
  let uriText := goTrimSpace config.URI
  if uriText = "" then config
  else
    let lowerURI := goToLower uriText
    if !(strStartsWith lowerURI "diros://" || strStartsWith lowerURI "doris://" ||
        strStartsWith lowerURI "mysql://") then config
    else
      match parseURL uriText with
      | none => config
      | some parsed =>
        let config :=
          match parsed.UserInfo with
          | none => config
          | some (u, pw) =>
            let config := if config.User = "" then { config with User := u } else config
            match pw with
            | some p =>
              if config.Password = "" then { config with Password := p } else config
            | none => config
        let dbName :=
          if strStartsWith parsed.Path "/" then String.mk (parsed.Path.data.drop 1)
          else parsed.Path
        let config :=
          if dbName ≠ "" ∧ config.Database = "" then { config with Database := dbName }
          else config
        let defaultPort := if config.Port ≤ 0 then defaultDirosPort else config.Port
        let hostText := goTrimSpace parsed.Host
        let hostsFromURI :=
          if hostText ≠ "" then
            (strSplitOnChar hostText ',').foldl
              (fun acc entry =>
                match parseHostPortWithDefault entry defaultPort with
                | some (h, p) => acc ++ [normalizeMySQLAddress h p]
                | none => acc) []
          else []
        let config :=
          if config.Hosts = ([] : List String) ∧ hostsFromURI ≠ ([] : List String) then { config with Hosts := hostsFromURI }
          else config
        let config :=
          if goTrimSpace config.Host = "" ∧ hostsFromURI ≠ ([] : List String) then
            match hostsFromURI.head? with
            | some first =>
              match parseHostPortWithDefault first defaultPort with
              | some (h, p) => { config with Host := h, Port := p }
              | none => config
            | none => config
          else config
        let config :=
          if config.Topology = "" then
            let topology := goTrimSpace (queryGet parsed.Query "topology")
            if topology ≠ "" then { config with Topology := goToLower topology } else config
          else config
        config

/-- Embedding of `collectDirosAddresses` (diros source file): the candidate
list is `config.Hosts`, or the primary host/port when empty; entries are
parsed, normalized, and deduplicated preserving order. -/
def collectDirosAddresses (config : Connection.ConnectionConfig) : List String :=
  let defaultPort := if config.Port ≤ 0 then defaultDirosPort else config.Port
  let candidates :=
    if config.Hosts ≠ ([] : List String) then config.Hosts
    else [normalizeMySQLAddress config.Host defaultPort]
  candidates.foldl
    (fun acc entry =>
      match parseHostPortWithDefault entry defaultPort with
      | none => acc
      | some (h, p) =>
        let normalized := normalizeMySQLAddress h p
        if normalized ∈ acc then acc else acc ++ [normalized])
    []

/-- Embedding of `resolveDirosCredential` (diros source file): non-first
addresses use the replica credential when one is configured; an empty
primary user also falls back to the replica credential. -/
def resolveDirosCredential (config : Connection.ConnectionConfig)
    (addressIndex : Nat) : String × String :=
  let primaryUser := goTrimSpace config.User
  let replicaUser := goTrimSpace config.MySQLReplicaUser
  if addressIndex > 0 ∧ replicaUser ≠ "" then
    (replicaUser, config.MySQLReplicaPassword)
  else if primaryUser = "" ∧ replicaUser ≠ "" then
    (replicaUser, config.MySQLReplicaPassword)
  else (config.User, config.Password)

/-- Oracle for the layers below `DirosDB.Connect`: SSH network
registration, `sql.Open` keyed by DSN string, and `PingContext` keyed by
the opened handle. -/
structure DirosEnv where
  sshNet : Connection.SSHConfig → Except String String
  sqlOpen : String → Except String Nat
  pingErr : Nat → Option String

/-- Embedding of `(*DirosDB).getDSN` (diros source file):
`user:password@protocol(address)/database?...&timeout=Ns`; with SSH the
protocol is the registered network name, falling back to tcp on
registration failure. -/
def getDSN (env : DirosEnv) (config : Connection.ConnectionConfig) : String :=
  let address := normalizeMySQLAddress config.Host config.Port
  let protocol :=
    if config.UseSSH then
      match env.sshNet config.SSH with
      | Except.ok netName => netName
      | Except.error _ => "tcp"
    else "tcp"
  config.User ++ ":" ++ config.Password ++ "@" ++ protocol ++ "(" ++ address ++
    ")/" ++ config.Database ++ "?charset=utf8mb4&parseTime=True&loc=Local&timeout=" ++
    toString (getConnectTimeoutSeconds config) ++ "s"

/-- Address loop of `DirosDB.Connect`: try each address with the credential
for its index, accumulating one failure detail per failed open or ping;
stop at the first address whose handle pings. -/
def dirosConnectLoop (env : DirosEnv) (runConfig : Connection.ConnectionConfig) :
    List String → Nat → List String → Except String Nat × List String
  | [], _, details =>
    if details = [] then
      (Except.error "连接建立后验证失败：未找到可用的 Diros 地址", details)
    else
      (Except.error ("连接建立后验证失败：" ++ strJoin "；" details), details)
  | address :: rest, index, details =>
    match parseHostPortWithDefault address defaultDirosPort with
    | none => dirosConnectLoop env runConfig rest (index + 1) details
    | some (h, p) =>
      let cred := resolveDirosCredential runConfig index
      let candidateConfig :=
        { runConfig with Host := h, Port := p, User := cred.1, Password := cred.2 }
      let dsn := getDSN env candidateConfig
      match env.sqlOpen dsn with
      | Except.error e =>
        dirosConnectLoop env runConfig rest (index + 1)
          (details ++ [address ++ " 打开失败: " ++ e])
      | Except.ok db =>
        match env.pingErr db with
        | some pe =>
          dirosConnectLoop env runConfig rest (index + 1)
            (details ++ [address ++ " 验证失败: " ++ pe])
        | none => (Except.ok db, details)

/-- Embedding of `(*DirosDB).Connect` (diros source file), returning both
the result (`ok handle` = nil error with `d.conn` bound to the handle) and
the accumulated `errorDetails` of the attempt sequence. -/
def DirosConnect (env : DirosEnv) (config : Connection.ConnectionConfig) :
    Except String Nat × List String :=
  let runConfig := applyDirosURI config
  let addresses := collectDirosAddresses runConfig
  if addresses = [] then
    (Except.error "连接建立后验证失败：未找到可用的 Diros 地址", [])
  else dirosConnectLoop env runConfig addresses 0 []

/-! ### Concrete fixtures used by the witness theorems -/

/-- Empty app-side SSH config. -/
def sampleSSH : SSHConfig :=
  { Host := "", Port := 0, User := "", Password := "", KeyPath := "" }

/-- Sample app-side connection config. -/
def sampleCfg : ConnectionConfig :=
  { DBType := "mysql", Host := "h", Port := 3306, User := "u", Password := "p",
    Database := "d", UseSSH := false, SSH := sampleSSH }

/-- Cache environment whose cached handles always ping. -/
def reuseEnv : AppEnv :=
  { pingOk := fun _ => true, factory := fun _ => Except.error "unused",
    connectErr := fun _ _ => some "unused", hasBatch := fun _ => false,
    applyErr := fun _ _ _ => none }

/-- Cache holding handle 5 under the sample config's fingerprint. -/
def reuseCache : AppCache := [(getCacheKey sampleCfg, 5)]

/-- Cache environment whose cached handles never ping and whose factory
knows only mysql, connecting successfully. -/
def evictEnv : AppEnv :=
  { pingOk := fun _ => false,
    factory := fun t => if t = "mysql" then Except.ok 9 else Except.error "no factory",
    connectErr := fun _ _ => none, hasBatch := fun _ => false,
    applyErr := fun _ _ _ => none }

/-- Empty change set. -/
def emptyChangeSet : Connection.ChangeSet :=
  { Inserts := [], Updates := [], Deletes := [] }

/-- Empty connection-package SSH config. -/
def emptyConnSSH : Connection.SSHConfig :=
  { Host := "", Port := 0, User := "", Password := "", KeyPath := "" }

/-- Minimal connection-package config. -/
def emptyConnCfg : Connection.ConnectionConfig :=
  { DBType := "", Host := "", Port := 0, User := "", Password := "",
    SavePassword := false, Database := "", UseSSH := false, SSH := emptyConnSSH,
    Driver := "", DSN := "", Timeout := 0, RedisDB := 0, URI := "", Hosts := [],
    Topology := "", MySQLReplicaUser := "", MySQLReplicaPassword := "" }

/-- Worker engine oracle whose binding lacks the batch capability and whose
methods all succeed. -/
def noBatchWorkerEnv : WorkerEnv :=
  { factoryOk := true, connectErr := fun _ _ => none, closeErr := fun _ => none,
    pingErr := fun _ => none, query := fun _ _ => Except.ok (0, []),
    exec := fun _ _ => Except.ok 0, getDatabases := fun _ => Except.ok 0,
    getTables := fun _ _ => Except.ok 0,
    getCreateStatement := fun _ _ _ => Except.ok 0,
    getColumns := fun _ _ _ => Except.ok 0,
    getAllColumns := fun _ _ => Except.ok 0,
    getIndexes := fun _ _ _ => Except.ok 0,
    getForeignKeys := fun _ _ _ => Except.ok 0,
    getTriggers := fun _ _ _ => Except.ok 0, hasBatch := fun _ => false,
    applyErr := fun _ _ _ => none }

/-- Sample applyChanges request. -/
def applyReq : agentRequest :=
  { ID := 7, Method := "applyChanges", Config := none, Query := "",
    DBName := "", TableName := "t", Changes := some emptyChangeSet }

/-- Worker state with an open engine instance (handle 3). -/
def openWorkerState : WorkerState := { inst := some 3, counter := 4 }

/-- Sample ping request. -/
def pingReq : agentRequest :=
  { ID := 1, Method := "ping", Config := none, Query := "", DBName := "",
    TableName := "", Changes := none }

/-- Sample connect request. -/
def connectReq : agentRequest :=
  { ID := 2, Method := "connect", Config := some emptyConnCfg, Query := "",
    DBName := "", TableName := "", Changes := none }

/-- Sample close request. -/
def closeReq : agentRequest :=
  { ID := 3, Method := "close", Config := none, Query := "", DBName := "",
    TableName := "", Changes := none }

/-- Multi-host Diros config with two candidate addresses and no URI. -/
def dirosCfg : Connection.ConnectionConfig :=
  { DBType := "diros", Host := "h0", Port := 0, User := "u", Password := "pw",
    SavePassword := false, Database := "db", UseSSH := false,
    SSH := emptyConnSSH, Driver := "", DSN := "", Timeout := 0, RedisDB := 0,
    URI := "", Hosts := ["h1", "h2:9031"], Topology := "",
    MySQLReplicaUser := "", MySQLReplicaPassword := "" }

/-- Diros oracle where only the second address's DSN yields a handle that
pings (handle 7); every other open yields handle 5, which fails to ping. -/
def dirosEnvOk : DirosEnv :=
  { sshNet := fun _ => Except.error "no ssh",
    sqlOpen := fun dsn =>
      if dsn = "u:pw@tcp(h2:9031)/db?charset=utf8mb4&parseTime=True&loc=Local&timeout=30s"
      then Except.ok 7 else Except.ok 5,
    pingErr := fun h => if h = 7 then none else some "boom" }

/-- Diros oracle where every opened handle fails to ping. -/
def dirosEnvBad : DirosEnv :=
  { sshNet := fun _ => Except.error "no ssh",
    sqlOpen := fun _ => Except.ok 5, pingErr := fun _ => some "boom" }

/-! ### Helper lemmas about the string embeddings -/

theorem headClean_of_cons (p : α → Bool) (a : α) (r : List α)
    (h : (a :: r : List α).dropWhile p = a :: r) : p a = false := by
  by_contra hc
  have hp : p a = true := by
    cases e : p a with
    | true => rfl
    | false => exact absurd e hc
  rw [List.dropWhile_cons_of_pos hp] at h
  have : (r.dropWhile p).length ≤ r.length := (List.dropWhile_sublist p).length_le
  have h2 : (r.dropWhile p).length = (a :: r : List α).length := by rw [h]
  simp at h2
  omega

theorem headClean_prefix (p : α → Bool) (x m : List α)
    (hx : x.dropWhile p = x) (hm : m <+: x) : m.dropWhile p = m := by
  cases m with
  | nil => rfl
  | cons a s =>
    rcases hm with ⟨t, ht⟩
    have hx2 : x = a :: (s ++ t) := by rw [← ht]; rfl
    rw [hx2] at hx
    have ha := headClean_of_cons p a (s ++ t) hx
    rw [List.dropWhile_cons_of_neg (by simp [ha])]

theorem dropWhile_self_idem (p : α → Bool) (l : List α) :
    (l.dropWhile p).dropWhile p = l.dropWhile p := by
  cases e : l.dropWhile p with
  | nil => rfl
  | cons a t =>
    have h2 := List.head?_dropWhile_not p l
    rw [e] at h2
    simp only [List.head?_cons] at h2
    rw [List.dropWhile_cons_of_neg (by simp [h2])]

theorem trimList_idem (p : α → Bool) (l : List α) :
    trimList p (trimList p l) = trimList p l := by
  unfold trimList
  have hu : (l.dropWhile p).dropWhile p = l.dropWhile p := dropWhile_self_idem p l
  have hw : ((l.dropWhile p).reverse.dropWhile p).dropWhile p
      = (l.dropWhile p).reverse.dropWhile p := dropWhile_self_idem p _
  have hpre : ((l.dropWhile p).reverse.dropWhile p).reverse <+: l.dropWhile p := by
    have hsuf : (l.dropWhile p).reverse.dropWhile p <:+ (l.dropWhile p).reverse :=
      List.dropWhile_suffix p
    have := hsuf.reverse
    rwa [List.reverse_reverse] at this
  have hclean : (((l.dropWhile p).reverse.dropWhile p).reverse).dropWhile p
      = ((l.dropWhile p).reverse.dropWhile p).reverse :=
    headClean_prefix p (l.dropWhile p) _ hu hpre
  rw [hclean, List.reverse_reverse, hw]

theorem trimList_map (p : α → Bool) (f : α → α) (l : List α)
    (hf : ∀ c, p (f c) = p c) :
    trimList p (l.map f) = (trimList p l).map f := by
  unfold trimList
  have hcomp : (p ∘ f) = p := funext hf
  rw [List.dropWhile_map, hcomp, ← List.map_reverse, List.dropWhile_map, hcomp,
    ← List.map_reverse]

theorem toNat_ofNat_small (n : Nat) (h : n < 0xd800) : (Char.ofNat n).toNat = n := by
  have hv : Nat.isValidChar n := Or.inl h
  simp only [Char.ofNat, hv, dite_true, Char.ofNatAux, Char.toNat]
  rfl

theorem lowerChar_idem (c : Char) : lowerChar (lowerChar c) = lowerChar c := by
  unfold lowerChar
  split
  · next h =>
    have h1 : (Char.ofNat (c.toNat + 32)).toNat = c.toNat + 32 :=
      toNat_ofNat_small _ (by omega)
    rw [if_neg (by omega)]
  · rfl

theorem goSpace_lowerChar (c : Char) : goSpace (lowerChar c) = goSpace c := by
  unfold lowerChar
  split
  · next h =>
    have h1 : (Char.ofNat (c.toNat + 32)).toNat = c.toNat + 32 :=
      toNat_ofNat_small _ (by omega)
    have h2 : c.toNat ≥ 65 := h.1
    have h3 : c.toNat ≤ 90 := h.2
    have ga : goSpace (Char.ofNat (c.toNat + 32)) = false := by
      simp only [goSpace, h1, Bool.or_eq_false_iff, decide_eq_false_iff_not]
      omega
    have gb : goSpace c = false := by
      simp only [goSpace, Bool.or_eq_false_iff, decide_eq_false_iff_not]
      omega
    rw [ga, gb]
  · rfl

theorem lower_trim_idem (s : String) :
    goToLower (goTrimSpace (goToLower (goTrimSpace s))) = goToLower (goTrimSpace s) := by
  unfold goToLower goTrimSpace
  simp only
  rw [trimList_map goSpace lowerChar _ goSpace_lowerChar, trimList_idem]
  congr 1
  rw [List.map_map]
  exact List.map_congr_left (fun c _ => lowerChar_idem c)

theorem normalizeDatabaseType_idem (s : String) :
    normalizeDatabaseType (normalizeDatabaseType s) = normalizeDatabaseType s := by
  by_cases h1 : goToLower (goTrimSpace s) = "doris"
  · have e : normalizeDatabaseType s = "diros" := by
      simp [normalizeDatabaseType, h1]
    rw [e]; rfl
  · by_cases h2 : goToLower (goTrimSpace s) = "postgresql"
    · have e : normalizeDatabaseType s = "postgres" := by
        simp [normalizeDatabaseType, h1, h2]
      rw [e]; rfl
    · have e : normalizeDatabaseType s = goToLower (goTrimSpace s) := by
        simp [normalizeDatabaseType, h1, h2]
      rw [e]
      unfold normalizeDatabaseType
      simp only
      rw [lower_trim_idem s, if_neg h1, if_neg h2]

/-! ### Claim theorems -/

/-- C1: the connection-cache fingerprint `getCacheKey` is a deterministic
function of engine type, user, host, port, database, SSH host and the
use-SSH flag only: any two configs agreeing on those fields — in
particular, any two differing only in the password field — share one
fingerprint, and replacing the password of any config leaves the
fingerprint unchanged. -/
theorem getCacheKey_ignores_password :
    (∀ a b : ConnectionConfig, a.DBType = b.DBType → a.User = b.User →
      a.Host = b.Host → a.Port = b.Port → a.Database = b.Database →
      a.SSH = b.SSH → a.UseSSH = b.UseSSH → getCacheKey a = getCacheKey b)
    ∧ ∀ (cfg : ConnectionConfig) (p : String),
        getCacheKey { cfg with Password := p } = getCacheKey cfg := by
  constructor
  · intro a b h1 h2 h3 h4 h5 h6 h7
    unfold getCacheKey
    rw [h1, h2, h3, h4, h5, h6, h7]
  · intro cfg p
    rfl

/-- Witness for C1 at a concrete pair differing only in password. -/
theorem getCacheKey_ignores_password_witness :
    getCacheKey { sampleCfg with Password := "other" } = getCacheKey sampleCfg :=
  getCacheKey_ignores_password.1 { sampleCfg with Password := "other" } sampleCfg
    rfl rfl rfl rfl rfl rfl rfl

/-- C10: the registry's `normalizeDatabaseType` and the driver-runtime
layer's `normalizeRuntimeDriverType` agree on every input (trim, lower,
alias doris to diros and postgresql to postgres), and both are
idempotent. -/
theorem normalize_functions_equal_idempotent (s : String) :
    normalizeRuntimeDriverType s = normalizeDatabaseType s
    ∧ normalizeDatabaseType (normalizeDatabaseType s) = normalizeDatabaseType s
    ∧ normalizeRuntimeDriverType (normalizeRuntimeDriverType s)
        = normalizeRuntimeDriverType s := by
  have he : ∀ t, normalizeRuntimeDriverType t = normalizeDatabaseType t := fun _ => rfl
  refine ⟨he s, normalizeDatabaseType_idem s, ?_⟩
  rw [he, he]
  exact normalizeDatabaseType_idem s

/-- C8: `NewDatabase` normalizes its argument; an empty normalized name
yields the default MySQL binding, a registered name yields that factory's
product with a nil error, and an unregistered name yields a nil binding
with an error whose message contains "unsupported database type". -/
theorem NewDatabase_normalizes_and_defaults (s : String) :
    (normalizeDatabaseType s = "" → NewDatabase s = Except.ok DBKind.mysql)
    ∧ (∀ f, normalizeDatabaseType s ≠ "" →
        registryLookup databaseFactories (normalizeDatabaseType s) = some f →
        NewDatabase s = Except.ok f)
    ∧ (normalizeDatabaseType s ≠ "" →
        registryLookup databaseFactories (normalizeDatabaseType s) = none →
        NewDatabase s = Except.error ("unsupported database type: " ++ s)
        ∧ ∃ pre post : List Char,
            ("unsupported database type: " ++ s).data =
              pre ++ "unsupported database type".data ++ post) := by
  refine ⟨?_, ?_, ?_⟩
  · intro h
    simp only [NewDatabase, h, if_pos rfl]
    rfl
  · intro f hne hlook
    simp only [NewDatabase, if_neg hne, hlook]
  · intro hne hlook
    refine ⟨by simp only [NewDatabase, if_neg hne, hlook], [], (": " ++ s).data, ?_⟩
    have h1 : ("unsupported database type: " ++ s).data =
        "unsupported database type: ".data ++ s.data := by
      rw [String.data_append]
    have h2 : "unsupported database type: ".data =
        "unsupported database type".data ++ ": ".data := by decide
    have h3 : (": " ++ s).data = ": ".data ++ s.data := by
      rw [String.data_append]
    rw [h1, h2, h3, List.nil_append, List.append_assoc]

/-- C5 counterexample: for two otherwise-identical configs whose engine
types are "doris" and "diros", `getCacheKey` returns different
fingerprints, so the two spellings do not share a fingerprint bucket and
the claim as stated is false. -/
theorem doris_diros_fingerprint_cex :
    ¬ (getCacheKey
        { DBType := "doris", Host := "h", Port := 3306, User := "u",
          Password := "p", Database := "d", UseSSH := false,
          SSH := { Host := "", Port := 0, User := "", Password := "", KeyPath := "" } } =
       getCacheKey
        { DBType := "diros", Host := "h", Port := 3306, User := "u",
          Password := "p", Database := "d", UseSSH := false,
          SSH := { Host := "", Port := 0, User := "", Password := "", KeyPath := "" } }) := by
  decide

/-- C5 amended: the engine-type strings "doris" and "diros" map to the same
registry entry in `NewDatabase` (the same factory after normalization), but
`getCacheKey` uses the raw type string, so otherwise-identical configs with
the two spellings fall into different fingerprint buckets. -/
theorem doris_diros_registry_not_fingerprint :
    NewDatabase "doris" = NewDatabase "diros"
    ∧ normalizeDatabaseType "doris" = normalizeDatabaseType "diros"
    ∧ ∀ cfg : ConnectionConfig,
        getCacheKey { cfg with DBType := "doris" } ≠
          getCacheKey { cfg with DBType := "diros" } := by
  refine ⟨rfl, rfl, ?_⟩
  intro cfg h
  simp only [getCacheKey] at h
  have hd := congrArg String.data h
  simp only [String.data_append] at hd
  have h2 := List.append_cancel_right hd
  exact absurd h2 (by decide)

theorem cacheLookup_cacheErase (st : AppCache) (k : String) :
    cacheLookup (cacheErase st k) k = none := by
  induction st with
  | nil => rfl
  | cons p rest ih =>
    by_cases h : p.1 = k
    · simp only [cacheErase, List.filter, h, bne_self_eq_false]
      exact ih
    · have hb : (p.1 != k) = true := by simp [bne, h]
      simp only [cacheErase, List.filter, hb]
      rw [cacheLookup, if_neg h]
      exact ih

/-- C2: when the fingerprint of a config has a cached entry whose ping
succeeds, `getDatabase` returns that very handle without touching the
factory or `Connect`, leaves the cache unchanged, and a second call with
the identical config returns the same handle again with a lone ping as its
only call into the layer below. -/
theorem getDatabase_cache_reuse (env : AppEnv) (st : AppCache)
    (cfg : ConnectionConfig) (i : Nat)
    (hcache : cacheLookup st (getCacheKey cfg) = some i)
    (hping : env.pingOk i = true) :
    getDatabase env st cfg = (Except.ok i, st, [AppEvent.ping i])
    ∧ getDatabase env (getDatabase env st cfg).2.1 cfg
        = (Except.ok i, st, [AppEvent.ping i]) := by
  have h1 : getDatabase env st cfg = (Except.ok i, st, [AppEvent.ping i]) := by
    simp only [getDatabase, hcache, hping, if_true]
  refine ⟨h1, ?_⟩
  rw [h1]
  exact h1

/-- C3: when the cached entry's ping fails, `getDatabase` closes the stale
handle and deletes its entry, then performs the factory lookup and at most
one `Connect`: exactly one when the factory succeeds, none when it fails;
on either failure the error is returned with nothing stored under the
fingerprint, the cache holding exactly the eviction and nothing else. -/
theorem getDatabase_evicts_and_reconnects (env : AppEnv) (st : AppCache)
    (cfg : ConnectionConfig) (i : Nat)
    (hcache : cacheLookup st (getCacheKey cfg) = some i)
    (hping : env.pingOk i = false) :
    (∀ e, env.factory cfg.DBType = Except.error e →
      getDatabase env st cfg =
        (Except.error e, cacheErase st (getCacheKey cfg),
         [AppEvent.ping i, AppEvent.close i, AppEvent.factoryCall cfg.DBType]))
    ∧ (∀ j e, env.factory cfg.DBType = Except.ok j → env.connectErr j cfg = some e →
        getDatabase env st cfg =
          (Except.error e, cacheErase st (getCacheKey cfg),
           [AppEvent.ping i, AppEvent.close i, AppEvent.factoryCall cfg.DBType,
            AppEvent.connect j]))
    ∧ (∀ j, env.factory cfg.DBType = Except.ok j → env.connectErr j cfg = none →
        getDatabase env st cfg =
          (Except.ok j,
           cacheInsert (cacheErase st (getCacheKey cfg)) (getCacheKey cfg) j,
           [AppEvent.ping i, AppEvent.close i, AppEvent.factoryCall cfg.DBType,
            AppEvent.connect j]))
    ∧ ((getDatabase env st cfg).2.2.countP
        (fun ev => match ev with | AppEvent.connect _ => true | _ => false) ≤ 1)
    ∧ (∀ e, (getDatabase env st cfg).1 = Except.error e →
        cacheLookup (getDatabase env st cfg).2.1 (getCacheKey cfg) = none) := by
  refine ⟨?_, ?_, ?_, ?_, ?_⟩
  · intro e hf
    simp [getDatabase, hcache, hping, hf]
  · intro j e hf hc
    simp [getDatabase, hcache, hping, hf, hc]
  · intro j hf hc
    simp [getDatabase, hcache, hping, hf, hc]
  · cases hf : env.factory cfg.DBType with
    | error e => simp [getDatabase, hcache, hping, hf, List.countP, List.countP.go]
    | ok j =>
      cases hc : env.connectErr j cfg with
      | some e =>
        simp [getDatabase, hcache, hping, hf, hc, List.countP, List.countP.go]
      | none =>
        simp [getDatabase, hcache, hping, hf, hc, List.countP, List.countP.go]
  · intro e herr
    cases hf : env.factory cfg.DBType with
    | error e2 =>
      simp [getDatabase, hcache, hping, hf]
      exact cacheLookup_cacheErase st (getCacheKey cfg)
    | ok j =>
      cases hc : env.connectErr j cfg with
      | some e2 =>
        simp [getDatabase, hcache, hping, hf, hc]
        exact cacheLookup_cacheErase st (getCacheKey cfg)
      | none =>
        simp [getDatabase, hcache, hping, hf, hc] at herr

theorem handleRequest_ID (env : WorkerEnv) (st : WorkerState) (req : agentRequest) :
    (handleRequest env st req).1.ID = req.ID := by
  simp only [handleRequest, workerFail]
  repeat' split
  all_goals rfl

/-- C4: feeding any sequence of requests one at a time through the agent
worker loop produces exactly one response per request, in request order,
each carrying the id of the request it answers: the id column of the
response list equals the id column of the request list. -/
theorem worker_preserves_ids_and_order (env : WorkerEnv) (st : WorkerState)
    (reqs : List agentRequest) :
    ((workerRun env st reqs).1).map agentResponse.ID = reqs.map agentRequest.ID := by
  induction reqs generalizing st with
  | nil => rfl
  | cons r rest ih =>
    simp only [workerRun, List.map_cons]
    rw [handleRequest_ID, ih]

theorem handleRequest_not_open (env : WorkerEnv) (st : WorkerState)
    (req : agentRequest) (hinst : st.inst = none)
    (h1 : goTrimSpace req.Method ≠ "connect")
    (h2 : goTrimSpace req.Method ≠ "close") :
    handleRequest env st req =
      ({ ID := req.ID, Success := false, Error := "connection not open",
         Data := none, Fields := [], RowsAffected := 0 }, st, []) := by
  simp only [handleRequest, if_neg h1, if_neg h2, hinst]
  rfl

/-- C7: with no connection open, the worker answers `close` (and a
well-formed `connect`) normally, while each of the twelve other protocol
methods is rejected with a failure response whose error text is
"connection not open", leaving the worker state untouched and making no
call into the engine binding. -/
theorem worker_connection_gate (env : WorkerEnv) (c : Nat)
    (req creq : agentRequest) (cfg : Connection.ConnectionConfig)
    (hm : goTrimSpace req.Method ∈
      (["ping", "query", "exec", "getDatabases", "getTables",
        "getCreateStatement", "getColumns", "getAllColumns", "getIndexes",
        "getForeignKeys", "getTriggers", "applyChanges"] : List String))
    (hcm : goTrimSpace creq.Method = "connect") (hcc : creq.Config = some cfg)
    (hfo : env.factoryOk = true) (hce : env.connectErr c cfg = none) :
    (handleRequest env { inst := none, counter := c } req =
      ({ ID := req.ID, Success := false, Error := "connection not open",
         Data := none, Fields := [], RowsAffected := 0 },
       { inst := none, counter := c }, []))
    ∧ (handleRequest env { inst := none, counter := c } creq =
        ({ ID := creq.ID, Success := true, Error := "", Data := none,
           Fields := [], RowsAffected := 0 },
         { inst := some c, counter := c + 1 }, [EngineCall.connect c]))
    ∧ (∀ dreq : agentRequest, goTrimSpace dreq.Method = "close" →
        handleRequest env { inst := none, counter := c } dreq =
          ({ ID := dreq.ID, Success := true, Error := "", Data := none,
             Fields := [], RowsAffected := 0 },
           { inst := none, counter := c }, [])) := by
  refine ⟨?_, ?_, ?_⟩
  · simp only [List.mem_cons, List.not_mem_nil, or_false] at hm
    rcases hm with h|h|h|h|h|h|h|h|h|h|h|h <;>
      exact handleRequest_not_open env _ req rfl
        (by rw [h]; decide) (by rw [h]; decide)
  · simp [handleRequest, hcm, hcc, hfo, hce]
  · intro dreq hd
    simp [handleRequest, hd]

/-- C6: invoking apply-changes against a connected binding that lacks the
batch-write capability fails with the explicit not-supported error of the
respective layer — the worker answers "当前驱动不支持 ApplyChanges" and
`App.ApplyChanges` answers "Batch updates not supported for this database
type" — and in both layers no call reaches the engine beyond the lookup
already performed, so no write happens. -/
theorem applyChanges_unsupported_no_write (env : WorkerEnv) (st : WorkerState)
    (req : agentRequest) (i : Nat) (cs : Connection.ChangeSet)
    (hinst : st.inst = some i)
    (hmeth : goTrimSpace req.Method = "applyChanges")
    (hcs : req.Changes = some cs)
    (hnb : env.hasBatch i = false) :
    handleRequest env st req =
      ({ ID := req.ID, Success := false, Error := "当前驱动不支持 ApplyChanges",
         Data := none, Fields := [], RowsAffected := 0 }, st, [])
    ∧ (∀ (aenv : AppEnv) (ast : AppCache) (cfg : ConnectionConfig)
        (dbName tableName : String) (changes : List Nat) (j : Nat)
        (st1 : AppCache) (evs : List AppEvent),
        getDatabase aenv ast
            (if dbName != "" then { cfg with Database := dbName } else cfg) =
          (Except.ok j, st1, evs) →
        aenv.hasBatch j = false →
        ApplyChanges aenv ast cfg dbName tableName changes =
          ({ Success := false,
             Message := "Batch updates not supported for this database type",
             Data := none, Fields := [] }, st1, evs)) := by
  constructor
  · simp [handleRequest, hmeth, hinst, hcs, hnb, workerFail]
    rfl
  · intro aenv ast cfg dbName tableName changes j st1 evs hget hnb2
    simp only [ApplyChanges, hget, hnb2]
    simp

/-- C9: for a multi-host Diros config resolving to two candidate addresses
where the first opens but fails verification and the second succeeds,
`Connect` returns success bound to the second address's handle while the
accumulated error detail records the first address's failure; and when
every address fails, `Connect` returns one combined error listing each
address's failure. -/
theorem diros_multihost_failover (env1 env2 : DirosEnv)
    (cfg : Connection.ConnectionConfig) (a1 a2 host1 host2 : String)
    (p1 p2 : Int) (d1 d2 d3 d4 : Nat) (e1 f1 f2 : String)
    (hURI : cfg.URI = "")
    (haddr : collectDirosAddresses cfg = [a1, a2])
    (hp1 : parseHostPortWithDefault a1 defaultDirosPort = some (host1, p1))
    (hp2 : parseHostPortWithDefault a2 defaultDirosPort = some (host2, p2))
    (hopen1 : env1.sqlOpen (getDSN env1
        { cfg with
          Host := host1, Port := p1,
          User := (resolveDirosCredential cfg 0).1,
          Password := (resolveDirosCredential cfg 0).2 }) = Except.ok d1)
    (hping1 : env1.pingErr d1 = some e1)
    (hopen2 : env1.sqlOpen (getDSN env1
        { cfg with
          Host := host2, Port := p2,
          User := (resolveDirosCredential cfg 1).1,
          Password := (resolveDirosCredential cfg 1).2 }) = Except.ok d2)
    (hping2 : env1.pingErr d2 = none)
    (hopen3 : env2.sqlOpen (getDSN env2
        { cfg with
          Host := host1, Port := p1,
          User := (resolveDirosCredential cfg 0).1,
          Password := (resolveDirosCredential cfg 0).2 }) = Except.ok d3)
    (hping3 : env2.pingErr d3 = some f1)
    (hopen4 : env2.sqlOpen (getDSN env2
        { cfg with
          Host := host2, Port := p2,
          User := (resolveDirosCredential cfg 1).1,
          Password := (resolveDirosCredential cfg 1).2 }) = Except.ok d4)
    (hping4 : env2.pingErr d4 = some f2) :
    DirosConnect env1 cfg = (Except.ok d2, [a1 ++ " 验证失败: " ++ e1])
    ∧ DirosConnect env2 cfg =
        (Except.error ("连接建立后验证失败：" ++
           (a1 ++ " 验证失败: " ++ f1 ++ "；" ++ (a2 ++ " 验证失败: " ++ f2))),
         [a1 ++ " 验证失败: " ++ f1, a2 ++ " 验证失败: " ++ f2]) := by
  have happly : applyDirosURI cfg = cfg := by
    unfold applyDirosURI
    rw [hURI]
    rfl
  constructor
  · simp only [DirosConnect, happly, haddr]
    rw [if_neg (by simp)]
    simp only [dirosConnectLoop, hp1, hopen1, hping1]
    simp only [List.nil_append, Nat.zero_add]
    simp only [dirosConnectLoop, hp2, hopen2, hping2]
  · simp only [DirosConnect, happly, haddr]
    rw [if_neg (by simp)]
    simp only [dirosConnectLoop, hp1, hopen3, hping3]
    simp only [List.nil_append, Nat.zero_add]
    simp only [dirosConnectLoop, hp2, hopen4, hping4]
    rw [if_neg (by simp)]
    simp [strJoin]

/-- Witness for C2 at a concrete cache, environment and config. -/
theorem getDatabase_cache_reuse_witness :
    getDatabase reuseEnv reuseCache sampleCfg
      = (Except.ok 5, reuseCache, [AppEvent.ping 5])
    ∧ getDatabase reuseEnv (getDatabase reuseEnv reuseCache sampleCfg).2.1 sampleCfg
      = (Except.ok 5, reuseCache, [AppEvent.ping 5]) :=
  getDatabase_cache_reuse reuseEnv reuseCache sampleCfg 5 rfl rfl

/-- Witness for C3: a failed ping evicts handle 5 and a single successful
reconnect stores handle 9. -/
theorem getDatabase_evicts_and_reconnects_witness :
    getDatabase evictEnv reuseCache sampleCfg =
      (Except.ok 9,
       cacheInsert (cacheErase reuseCache (getCacheKey sampleCfg)) (getCacheKey sampleCfg) 9,
       [AppEvent.ping 5, AppEvent.close 5, AppEvent.factoryCall "mysql",
        AppEvent.connect 9]) :=
  (getDatabase_evicts_and_reconnects evictEnv reuseCache sampleCfg 5 rfl rfl).2.2.1 9 rfl rfl

/-- Witness for C6 in both layers at concrete fixtures. -/
theorem applyChanges_unsupported_no_write_witness :
    handleRequest noBatchWorkerEnv openWorkerState applyReq =
      ({ ID := 7, Success := false, Error := "当前驱动不支持 ApplyChanges",
         Data := none, Fields := [], RowsAffected := 0 }, openWorkerState, [])
    ∧ ApplyChanges reuseEnv reuseCache sampleCfg "" "t" [] =
        ({ Success := false,
           Message := "Batch updates not supported for this database type",
           Data := none, Fields := [] }, reuseCache, [AppEvent.ping 5]) := by
  have H := applyChanges_unsupported_no_write noBatchWorkerEnv openWorkerState
    applyReq 3 emptyChangeSet rfl rfl rfl rfl
  exact ⟨H.1, H.2 reuseEnv reuseCache sampleCfg "" "t" [] 5 reuseCache
    [AppEvent.ping 5] rfl rfl⟩

/-- Witness for C7 at concrete requests against a closed worker. -/
theorem worker_connection_gate_witness :
    handleRequest noBatchWorkerEnv { inst := none, counter := 0 } pingReq =
      ({ ID := 1, Success := false, Error := "connection not open",
         Data := none, Fields := [], RowsAffected := 0 },
       { inst := none, counter := 0 }, [])
    ∧ handleRequest noBatchWorkerEnv { inst := none, counter := 0 } connectReq =
        ({ ID := 2, Success := true, Error := "", Data := none, Fields := [],
           RowsAffected := 0 },
         { inst := some 0, counter := 1 }, [EngineCall.connect 0])
    ∧ handleRequest noBatchWorkerEnv { inst := none, counter := 0 } closeReq =
        ({ ID := 3, Success := true, Error := "", Data := none, Fields := [],
           RowsAffected := 0 },
         { inst := none, counter := 0 }, []) := by
  have H := worker_connection_gate noBatchWorkerEnv 0 pingReq connectReq
    emptyConnCfg (by decide) rfl rfl rfl rfl
  exact ⟨H.1, H.2.1, H.2.2 closeReq rfl⟩

/-- Witness for C8 at an empty, an aliased and an unknown type name. -/
theorem NewDatabase_normalizes_and_defaults_witness :
    NewDatabase "" = Except.ok DBKind.mysql
    ∧ NewDatabase " DoRiS " = Except.ok (DBKind.agent "diros")
    ∧ NewDatabase "nosuchdb" = Except.error "unsupported database type: nosuchdb" :=
  ⟨(NewDatabase_normalizes_and_defaults "").1 rfl,
   (NewDatabase_normalizes_and_defaults " DoRiS ").2.1 (DBKind.agent "diros")
     (by decide) rfl,
   ((NewDatabase_normalizes_and_defaults "nosuchdb").2.2 (by decide) rfl).1⟩

/-- Witness for C5's amended claim at a concrete config. -/
theorem doris_diros_registry_not_fingerprint_witness :
    getCacheKey { sampleCfg with DBType := "doris" } ≠
      getCacheKey { sampleCfg with DBType := "diros" } :=
  doris_diros_registry_not_fingerprint.2.2 sampleCfg

/-- Witness for C9 at a concrete two-address config and oracles. -/
theorem diros_multihost_failover_witness :
    DirosConnect dirosEnvOk dirosCfg = (Except.ok 7, ["h1:9030 验证失败: boom"])
    ∧ DirosConnect dirosEnvBad dirosCfg =
        (Except.error
          "连接建立后验证失败：h1:9030 验证失败: boom；h2:9031 验证失败: boom",
         ["h1:9030 验证失败: boom", "h2:9031 验证失败: boom"]) :=
  diros_multihost_failover dirosEnvOk dirosEnvBad dirosCfg "h1:9030" "h2:9031"
    "h1" "h2" 9030 9031 5 7 5 5 "boom" "boom" "boom" rfl rfl rfl rfl rfl rfl
    rfl rfl rfl rfl rfl rfl

end GoNavi
